import Mathlib

/-!
Shallow embedding of the poi-oracle analysis core: the POI keyword classifier
and taxonomy (utils/poiClassifier.ts), the city gazetteer, the heuristic query
interpreter and its LLM wrapper (utils/llmIntegration.ts), the analysis
orchestrator (utils/aiReasoning.ts), and the analyze HTTP handler
(pages/api/analyze.ts).

Conventions of the embedding:
- JavaScript numbers are modelled as rationals (`ℚ`); every score in the
  classifier is a sum of the literals 0.35 / 0.15 compared against 0.3 / 0.95,
  and every random draw is an arbitrary rational in [0,1), so the rational
  ordering agrees with the IEEE-double ordering on all values the code
  actually compares.
- `Math.random()` is modelled by an explicit oracle of rationals in [0,1),
  one component per call site; `Date.now()` is an explicit `Nat` parameter.
- String lowercasing is ASCII lowercasing (all table keys and keywords in the
  source are ASCII).
- The chat-completion call and `JSON.parse` are modelled as explicit
  `Except`-valued parameters, so a network failure, an absent message and a
  parse failure are all representable.
-/

set_option maxRecDepth 100000

namespace POIOracle

/-- ASCII lowercasing of a single character (the embedding of the effect of
`String.prototype.toLowerCase` on the ASCII inputs used by the code). -/
def charToLower (c : Char) : Char :=
  if 65 ≤ c.toNat ∧ c.toNat ≤ 90 then Char.ofNat (c.toNat + 32) else c

/-- ASCII uppercasing of a single character (for `charAt(0).toUpperCase()`). -/
def charToUpper (c : Char) : Char :=
  if 97 ≤ c.toNat ∧ c.toNat ≤ 122 then Char.ofNat (c.toNat - 32) else c

/-- `s.toLowerCase()` on ASCII strings. -/
def lowerStr (s : String) : String :=
  String.mk (s.data.map charToLower)

/-- Does the character list start with the given needle? -/
def startsWithChars : List Char → List Char → Bool
  | [], _ => true
  | _ :: _, [] => false
  | c :: cs, d :: ds => c == d && startsWithChars cs ds

/-- Substring test on character lists: `containsSub hay needle` is
`needle` occurring contiguously in `hay` (the empty needle always occurs). -/
def containsSub (hay needle : List Char) : Bool :=
  match hay with
  | [] => needle.isEmpty
  | _ :: t => startsWithChars needle hay || containsSub t needle

/-- `haystack.includes(needle)` of JavaScript strings. -/
def containsSubstr (haystack needle : String) : Bool :=
  containsSub haystack.data needle.data

/-- One category definition of the static taxonomy (`POICategory` in
utils/poiClassifier.ts). -/
structure POICategory where
  id : String
  name : String
  description : String
  keywords : List String
  contextualRules : List String
deriving DecidableEq

/-- The static taxonomy `POI_CATEGORIES` of utils/poiClassifier.ts,
verbatim and in declaration order. -/
def POI_CATEGORIES : List POICategory := [
  { id := "food_beverage", name := "Food & Beverage",
    description := "Restaurants, cafes, street food, and beverage outlets",
    keywords := ["restaurant", "cafe", "dhaba", "chai", "food", "biryani", "dosa", "coffee", "bakery"],
    contextualRules := ["Near residential areas", "High foot traffic zones", "Commercial streets"] },
  { id := "retail", name := "Retail & Shopping",
    description := "Shops, markets, malls, and retail outlets",
    keywords := ["shop", "store", "market", "mall", "kirana", "bazaar", "supermarket", "grocery"],
    contextualRules := ["Commercial zones", "Market districts", "Residential periphery"] },
  { id := "healthcare", name := "Healthcare",
    description := "Hospitals, clinics, pharmacies, diagnostic centers",
    keywords := ["hospital", "clinic", "pharmacy", "medical", "doctor", "diagnostic", "chemist", "health"],
    contextualRules := ["Accessible locations", "Near residential areas", "Main roads"] },
  { id := "education", name := "Education",
    description := "Schools, colleges, coaching centers, libraries",
    keywords := ["school", "college", "university", "coaching", "tuition", "library", "academy", "institute"],
    contextualRules := ["Residential neighborhoods", "Safe zones", "Away from industrial areas"] },
  { id := "finance", name := "Financial Services",
    description := "Banks, ATMs, insurance, financial services",
    keywords := ["bank", "atm", "insurance", "finance", "money transfer", "loan", "credit"],
    contextualRules := ["Commercial areas", "High security zones", "Main markets"] },
  { id := "transportation", name := "Transportation",
    description := "Bus stops, metro stations, auto stands, parking",
    keywords := ["bus", "metro", "auto", "taxi", "parking", "station", "stand", "terminal"],
    contextualRules := ["Transit hubs", "Major roads", "Junction points"] },
  { id := "worship", name := "Places of Worship",
    description := "Temples, mosques, churches, gurudwaras",
    keywords := ["temple", "mosque", "church", "gurudwara", "mandir", "masjid", "prayer"],
    contextualRules := ["Community centers", "Peaceful areas", "Heritage zones"] },
  { id := "entertainment", name := "Entertainment",
    description := "Theaters, gaming zones, recreational facilities",
    keywords := ["cinema", "theater", "gaming", "entertainment", "multiplex", "park", "playground"],
    contextualRules := ["Commercial zones", "Urban centers", "Family areas"] },
  { id := "government", name := "Government Services",
    description := "Government offices, post offices, civic centers",
    keywords := ["government", "office", "post office", "municipal", "civic", "panchayat", "tehsil"],
    contextualRules := ["Administrative zones", "Accessible locations", "City centers"] },
  { id := "technology", name := "IT & Technology",
    description := "IT parks, tech companies, coworking spaces",
    keywords := ["IT park", "tech park", "office", "coworking", "startup", "software", "technology"],
    contextualRules := ["Business districts", "Modern infrastructure", "Metro connectivity"] },
  { id := "hospitality", name := "Hospitality",
    description := "Hotels, lodges, guest houses",
    keywords := ["hotel", "lodge", "guest house", "resort", "inn", "motel", "hostel"],
    contextualRules := ["Tourist areas", "Business districts", "Transport hubs"] },
  { id := "automotive", name := "Automotive",
    description := "Fuel stations, service centers, showrooms",
    keywords := ["petrol", "diesel", "fuel", "service center", "showroom", "workshop", "garage"],
    contextualRules := ["Main roads", "Highway junctions", "Industrial areas"] },
  { id := "fitness", name := "Fitness & Wellness",
    description := "Gyms, yoga centers, spas, salons",
    keywords := ["gym", "fitness", "yoga", "spa", "salon", "wellness", "health club"],
    contextualRules := ["Residential areas", "Commercial zones", "IT park vicinity"] },
  { id := "industrial", name := "Industrial",
    description := "Factories, warehouses, manufacturing units",
    keywords := ["factory", "warehouse", "industrial", "manufacturing", "godown", "plant"],
    contextualRules := ["Industrial zones", "City outskirts", "Logistics hubs"] },
  { id := "residential", name := "Residential",
    description := "Apartments, villas, housing societies",
    keywords := ["apartment", "villa", "society", "colony", "township", "residential"],
    contextualRules := ["Planned layouts", "School proximity", "Green zones"] }
]

/-- The `{category, confidence}` result of `classifyPOI`. -/
structure Classification where
  category : String
  confidence : ℚ
deriving DecidableEq

/-- Rational addition computed through `mkRat`, so that it reduces inside the
kernel (`Rat.add` is irreducible); `ratAdd_eq_add` below shows it is exactly
`+` on `ℚ`. -/
def ratAdd (a b : ℚ) : ℚ :=
  mkRat (a.num * b.den + b.num * a.den) (a.den * b.den)

/-- The keyword score of one category: 0.35 added for every keyword occurring
as a substring of the lower-cased name. -/
def keywordScore (nameLower : String) (cat : POICategory) : ℚ :=
  cat.keywords.foldl
    (fun score kw => if containsSubstr nameLower kw then ratAdd score (mkRat 35 100) else score) 0

/-- The contextual-rule score: 0.15 added on top of `base` for every rule
occurring (lower-cased) as a substring of the lower-cased context. -/
def contextualScore (contextLower : String) (cat : POICategory) (base : ℚ) : ℚ :=
  cat.contextualRules.foldl
    (fun score rule => if containsSubstr contextLower (lowerStr rule) then ratAdd score (mkRat 15 100) else score)
    base

/-- The confidence `classifyPOI` computes for one category: keyword score,
plus contextual score when a (truthy, i.e. nonempty) context was supplied,
capped at 0.95. -/
def categoryConfidence (name : String) (context : Option String) (cat : POICategory) : ℚ :=
  let base := keywordScore (lowerStr name) cat
  let score :=
    match context with
    | none => base
    | some ctx => if ctx = "" then base else contextualScore (lowerStr ctx) cat base
  min score (mkRat 95 100)

/-- One step of `classifyPOI`'s loop over the taxonomy: replace the best
match only when the new confidence is strictly greater. -/
def classifyStep (name : String) (context : Option String)
    (best : Classification) (cat : POICategory) : Classification :=
  let confidence := categoryConfidence name context cat
  if best.confidence < confidence then ⟨cat.id, confidence⟩ else best

/-- `classifyPOI` of utils/poiClassifier.ts: fold the taxonomy in declaration
order starting from the `unknown` / 0.3 default. -/
def classifyPOI (name : String) (context : Option String) : Classification :=
  POI_CATEGORIES.foldl (classifyStep name context) ⟨"unknown", mkRat 3 10⟩

/-- The category/keyword pairs on which classifying the bare keyword does NOT
return that category: the mixed-case keyword "IT park" never matches the
lower-cased name (entertainment's "park" matches instead), and for the other
four pairs an earlier-declared category reaches the same 0.35 score on the
same name ("tech park" contains entertainment's "park", "office" is also a
government keyword, "health club" contains healthcare's "health", "workshop"
contains retail's "shop") and a tie keeps the earlier category. -/
def keywordClaimExceptions : List (String × String) :=
  [("technology", "IT park"), ("technology", "tech park"), ("technology", "office"),
   ("fitness", "health club"), ("automotive", "workshop")]

/-- The fixed coordinates of the default city (`CITY_COORDINATES.bangalore`). -/
def bangaloreCoords : ℚ × ℚ := (mkRat 129716 10000, mkRat 775946 10000)

/-- The static gazetteer `CITY_COORDINATES` of utils/poiClassifier.ts, as an
association list in declaration order. -/
def CITY_COORDINATES : List (String × ℚ × ℚ) := [
  ("bangalore", bangaloreCoords),
  ("bengaluru", (mkRat 129716 10000, mkRat 775946 10000)),
  ("delhi", (mkRat 286139 10000, mkRat 772090 10000)),
  ("mumbai", (mkRat 190760 10000, mkRat 728777 10000)),
  ("nairobi", (mkRat (-12921) 10000, mkRat 368219 10000)),
  ("hyderabad", (mkRat 173850 10000, mkRat 784867 10000)),
  ("kenya", (mkRat (-12921) 10000, mkRat 368219 10000)),
  ("chennai", (mkRat 130827 10000, mkRat 802707 10000)),
  ("pune", (mkRat 185204 10000, mkRat 738567 10000)),
  ("kolkata", (mkRat 225726 10000, mkRat 883639 10000)),
  ("ahmedabad", (mkRat 230225 10000, mkRat 725714 10000)),
  ("jaipur", (mkRat 269124 10000, mkRat 757873 10000)),
  ("lucknow", (mkRat 268467 10000, mkRat 809462 10000)),
  ("kochi", (mkRat 99312 10000, mkRat 762673 10000)),
  ("chandigarh", (mkRat 307333 10000, mkRat 767794 10000))
]

/-- The whitespace class of the regular expression `\s` on the ASCII range. -/
def jsWhitespace (c : Char) : Bool :=
  c == ' ' || c == '\t' || c == '\n' || c == '\r' || c == '\x0b' || c == '\x0c'

/-- `location.toLowerCase().replace(/\s+/g, '')` of the gazetteer lookup. -/
def normalizeCity (s : String) : String :=
  String.mk ((lowerStr s).data.filter (fun c => !jsWhitespace c))

/-- The property names an object literal inherits from `Object.prototype`.
JavaScript bracket lookup on the gazetteer object with one of these keys
finds a truthy inherited member (a built-in function, or the prototype
object itself for "__proto__"), never `undefined`. -/
def objectPrototypeKeys : List String :=
  ["constructor", "hasOwnProperty", "isPrototypeOf", "propertyIsEnumerable",
   "toLocaleString", "toString", "valueOf", "__proto__", "__defineGetter__",
   "__defineSetter__", "__lookupGetter__", "__lookupSetter__"]

/-- The possible values of `CITY_COORDINATES[normalized] ||
CITY_COORDINATES.bangalore`: a coordinate array (an own property of the
table, or the default city from the fallback), or a truthy member inherited
from `Object.prototype`, recorded by its property name. -/
inductive CityLookup where
  | coords (c : ℚ × ℚ)
  | inherited (key : String)
deriving DecidableEq

/-- `getCityCoordinates` of utils/aiReasoning.ts under full JavaScript
bracket-lookup semantics: an own key of the object literal yields its
coordinate pair; a key naming an `Object.prototype` member yields that
inherited member, which is truthy, so the `||` fallback does NOT fire; only
a completely absent key yields `undefined` and falls back to the default
city's coordinates. -/
def getCityCoordinatesJS (location : String) : CityLookup :=
  match CITY_COORDINATES.lookup (normalizeCity location) with
  | some coords => .coords coords
  | none =>
    if objectPrototypeKeys.contains (normalizeCity location) then
      .inherited (normalizeCity location)
    else .coords bangaloreCoords

/-- The coordinate-valued restriction of `getCityCoordinatesJS` used inside
the orchestrator embedding: it idealizes the `Object.prototype` member
names (only "constructor" and "__proto__" survive lowercasing) to the
default city. The two functions agree on every name whose normalization is
not an `Object.prototype` member name, and none of the orchestrator
theorems below depends on the coordinate values this function returns. -/
def getCityCoordinates (location : String) : ℚ × ℚ :=
  match CITY_COORDINATES.lookup (normalizeCity location) with
  | some coords => coords
  | none => bangaloreCoords

/-- The structured interpretation produced by the query interpreter
(`LLMQueryAnalysis` in utils/llmIntegration.ts). -/
structure LLMQueryAnalysis where
  location : String
  businessType : String
  contextualFactors : List String
  marketInsights : String
  keyAssumptions : List String
deriving DecidableEq

/-- `city.charAt(0).toUpperCase() + city.slice(1)`. -/
def capitalizeFirst (s : String) : String :=
  match s.data with
  | [] => ""
  | c :: cs => String.mk (charToUpper c :: cs)

/-- The fixed ordered city list scanned by `simulateAnalysis`. -/
def simCities : List String :=
  ["bangalore", "bengaluru", "delhi", "mumbai", "nairobi", "hyderabad",
   "kenya", "chennai", "pune", "kolkata", "ahmedabad", "jaipur"]

/-- The fixed keyword-to-business-type table of `simulateAnalysis`, in
insertion order. -/
def simBusinessTypes : List (String × String) :=
  [("chai", "Chai Stall"), ("tea", "Tea Shop"), ("coffee", "Coffee Shop"),
   ("pharmacy", "Pharmacy"), ("medical", "Medical Store"), ("restaurant", "Restaurant"),
   ("food", "Food Outlet"), ("gym", "Fitness Center"), ("school", "Educational Institution"),
   ("bank", "Banking Services"), ("atm", "ATM"), ("salon", "Beauty Salon"),
   ("spa", "Wellness Spa"), ("grocery", "Grocery Store"), ("supermarket", "Supermarket")]

/-- Location extraction: first city of the fixed list occurring in the
lower-cased query, capitalized; default "Bangalore". -/
def extractLocation (queryLower : String) : String :=
  match simCities.find? (fun city => containsSubstr queryLower city) with
  | some city => capitalizeFirst city
  | none => "Bangalore"

/-- Business-type extraction: first table key occurring in the lower-cased
query; default "Business". -/
def extractBusinessType (queryLower : String) : String :=
  match simBusinessTypes.find? (fun entry => containsSubstr queryLower entry.1) with
  | some entry => entry.2
  | none => "Business"

/-- Contextual-factor extraction from fixed substring triggers, with the
two generic default tags when none fires. -/
def extractContextualFactors (queryLower : String) : List String :=
  let f1 := if containsSubstr queryLower "it park" || containsSubstr queryLower "tech park"
    then ["Proximity to IT/Tech Parks"] else []
  let f2 := if containsSubstr queryLower "residential" then ["Residential Area Focus"] else []
  let f3 := if containsSubstr queryLower "underserved" || containsSubstr queryLower "gap"
    then ["Market Gap Analysis Required"] else []
  let f4 := if containsSubstr queryLower "commercial" then ["Commercial Zone Priority"] else []
  let f5 := if containsSubstr queryLower "metro" || containsSubstr queryLower "transit"
    then ["Metro/Transit Accessibility"] else []
  let factors := f1 ++ f2 ++ f3 ++ f4 ++ f5
  if factors.isEmpty then ["General Commercial Viability", "Foot Traffic Potential"] else factors

/-- The templated market-insights sentence of `simulateAnalysis`. -/
def buildMarketInsights (businessType location : String) (factors : List String) : String :=
  "Analyzing optimal locations for " ++ businessType ++ " in " ++ location ++ ". " ++
  (if factors.length > 0 then
    "Key considerations include " ++ lowerStr (String.intercalate " and " (factors.take 2)) ++ ". "
   else "") ++
  "The analysis will identify high-footfall areas with good accessibility, visibility, and demographic alignment for your target customer base."

/-- The four templated assumption strings of `simulateAnalysis`. -/
def buildKeyAssumptions (businessType : String) (factors : List String) : List String :=
  let hasIT := factors.contains "Proximity to IT/Tech Parks"
  [ "High demand areas are concentrated near major " ++
      (if hasIT then "IT parks and tech corridors" else "commercial zones"),
    businessType ++ " performs best in areas with consistent daily foot traffic patterns",
    "Peak business hours align with " ++
      (if hasIT then "8-10 AM and 6-8 PM (IT crowd)" else "standard 9 AM - 6 PM working hours"),
    "Competition density in target area is moderate to high" ]

/-- `simulateAnalysis` of utils/llmIntegration.ts: the deterministic
heuristic interpreter. -/
def simulateAnalysis (query : String) : LLMQueryAnalysis :=
  let queryLower := lowerStr query
  let location := extractLocation queryLower
  let businessType := extractBusinessType queryLower
  let contextualFactors := extractContextualFactors queryLower
  { location := location
    businessType := businessType
    contextualFactors := contextualFactors
    marketInsights := buildMarketInsights businessType location contextualFactors
    keyAssumptions := buildKeyAssumptions businessType contextualFactors }

/-- The static LLM configuration (enable flag and provider selector, read
from the environment at process start). -/
structure LLMConfig where
  useLLM : Bool
  provider : String

/-- `getClient` returns a client only for the "ollama" and "openai"
providers; this is the embedding of that client being non-null. -/
def hasClient (provider : String) : Bool :=
  provider == "ollama" || provider == "openai"

/-- Stripping of optional Markdown code fences before JSON parsing:
trim, drop a leading fence (with optional json tag), drop a trailing
fence, trim again. -/
def trimChars (l : List Char) : List Char :=
  ((l.dropWhile jsWhitespace).reverse.dropWhile jsWhitespace).reverse

def stripCodeFences (content : String) : String :=
  let j := trimChars content.data
  let j := if startsWithChars "\x60\x60\x60json".data j then j.drop 7 else j
  let j := if startsWithChars "\x60\x60\x60".data j then j.drop 3 else j
  let j := if startsWithChars "\x60\x60\x60".data.reverse j.reverse then (j.reverse.drop 3).reverse
    else j
  String.mk (trimChars j)

/-- `analyzeSpatialQuery` of utils/llmIntegration.ts. The chat-completion
call is the explicit `llmCall` parameter (`Except.error` = network
error/timeout; `Except.ok none` = response without message content;
`Except.ok (some c)` = content `c`, where the empty string is falsy and
triggers the thrown-and-caught "No response from LLM"); JSON parsing plus
the cast to the expected shape is the explicit `parse` parameter. Every
failure path returns `simulateAnalysis query`. -/
def analyzeSpatialQuery (cfg : LLMConfig) (llmCall : Except String (Option String))
    (parse : String → Except String LLMQueryAnalysis) (query : String) : LLMQueryAnalysis :=
  if cfg.useLLM = false ∨ cfg.provider = "simulate" then simulateAnalysis query
  else if hasClient cfg.provider = false then simulateAnalysis query
  else
    match llmCall with
    | .error _ => simulateAnalysis query
    | .ok none => simulateAnalysis query
    | .ok (some content) =>
      if content = "" then simulateAnalysis query
      else
        match parse (stripCodeFences content) with
        | .error _ => simulateAnalysis query
        | .ok analysis => analysis

/-- Optional POI attributes (`POIData.attributes`). -/
structure POIAttributes where
  hours : Option String := none
  rating : Option ℚ := none
  tags : Option (List String) := none
deriving DecidableEq

/-- A point of interest (`POIData` in utils/poiClassifier.ts). -/
structure POIData where
  id : String
  name : String
  category : String
  lat : ℚ
  lng : ℚ
  confidence : ℚ
  verified : Bool
  attributes : Option POIAttributes := none
deriving DecidableEq

/-- The `aiReasoning` block of an `AnalysisResult`. -/
structure AIReasoning where
  interpretation : String
  suggestedLocations : List POIData
  assumptions : List String
  confidence : ℚ
deriving DecidableEq

/-- The `groundTruth` block of an `AnalysisResult`; `accuracy` is the result
of `Math.round` followed by the cap, hence an integer. -/
structure GroundTruth where
  verifiedPOIs : List POIData
  corrections : List String
  gaps : List String
  accuracy : ℤ
deriving DecidableEq

/-- The map-viewport block of an `AnalysisResult`. -/
structure Visualization where
  center : ℚ × ℚ
  zoom : ℕ
deriving DecidableEq

/-- The full `AnalysisResult` of utils/poiClassifier.ts. -/
structure AnalysisResult where
  query : String
  aiReasoning : AIReasoning
  groundTruth : GroundTruth
  recommendation : String
  visualization : Visualization
deriving DecidableEq

/-- `Math.round`: round half away from zero — on the non-negative values the
code rounds, round half up, i.e. the floor of `q + 1/2`. -/
def jsRound (q : ℚ) : ℤ := ⌊q + 1/2⌋

/-- One rational per `Math.random()` call site of the orchestrator
(indexed by loop iteration where the site sits in a loop); a run of the
program corresponds to an oracle whose values all lie in [0,1). -/
structure RandomOracle where
  reasoningConf : ℚ
  aiLat : Nat → ℚ
  aiLng : Nat → ℚ
  aiConf : Nat → ℚ
  validationRate : ℚ
  verLat : Nat → ℚ
  verLng : Nat → ℚ
  verConf : Nat → ℚ
  verRating : Nat → ℚ
  gapCount : ℚ

/-- A rational in the range of `Math.random()`. -/
def inUnit (q : ℚ) : Prop := 0 ≤ q ∧ q < 1

/-- All draws of the oracle lie in [0,1). -/
def RandomOracle.Valid (r : RandomOracle) : Prop :=
  inUnit r.reasoningConf ∧ inUnit r.validationRate ∧ inUnit r.gapCount ∧
  (∀ i, inUnit (r.aiLat i)) ∧ (∀ i, inUnit (r.aiLng i)) ∧ (∀ i, inUnit (r.aiConf i)) ∧
  (∀ i, inUnit (r.verLat i)) ∧ (∀ i, inUnit (r.verLng i)) ∧ (∀ i, inUnit (r.verConf i)) ∧
  (∀ i, inUnit (r.verRating i))

/-- The per-query-type template name lists of `generateAISuggestions`. -/
def locationNames (businessType : String) : List (String × List String) :=
  [("location",
    ["Prime " ++ businessType ++ " Zone - High Traffic",
     businessType ++ " Hotspot - Tech Corridor",
     "Emerging " ++ businessType ++ " District",
     "Premium " ++ businessType ++ " Location",
     "Strategic " ++ businessType ++ " Point"]),
   ("market",
    ["Underserved Market - " ++ businessType,
     "High Growth Potential Zone",
     "Market Gap - " ++ businessType ++ " Opportunity",
     "Emerging Consumer Hub",
     "Untapped " ++ businessType ++ " Market"]),
   ("competitor",
    ["Low Competition Zone", "Competitor Weak Spot", "Market Share Opportunity",
     "Strategic Entry Point", "Competition Gap Area"]),
   ("optimize",
    ["Optimal Coverage Point", "Network Efficiency Zone", "Supply Chain Hub",
     "Logistics Optimization Point", "Resource Efficiency Location"])]

/-- `locationNames[queryType || 'location'] || locationNames.location`:
an absent, empty or unrecognized query type falls back to the "location"
list. A query type naming an `Object.prototype` member ("constructor",
"toString", ...) would in JavaScript yield that truthy inherited function,
whose numeric indexing then produces `undefined` names; this model
idealizes that case to the "location" list. The loop still pushes exactly 5
suggestions with `verified = false` whatever the name values, so the
theorems below that quantify over the query type are unaffected. -/
def suggestionNames (businessType : String) (queryType : Option String) : List String :=
  let key := match queryType with
    | none => "location"
    | some s => if s = "" then "location" else s
  match (locationNames businessType).lookup key with
  | some names => names
  | none => (((locationNames businessType).lookup "location").getD [])

/-- Does any contextual factor mention "it" or "tech" (lower-cased substring
check)? -/
def hasITContext (contextFactors : List String) : Bool :=
  contextFactors.any fun f =>
    containsSubstr (lowerStr f) "it" || containsSubstr (lowerStr f) "tech"

/-- The i-th AI suggestion generated by `generateAISuggestions`. -/
def aiSuggestionAt (coords : ℚ × ℚ) (names : List String) (hasIT : Bool)
    (rnd : RandomOracle) (now i : Nat) : POIData :=
  { id := "ai_" ++ toString now ++ "_" ++ toString i
    name := names.getD i ""
    category := "ai_suggested"
    lat := coords.1 + (rnd.aiLat i - 1/2) * (4/100)
    lng := coords.2 + (rnd.aiLng i - 1/2) * (4/100)
    confidence := 55/100 + rnd.aiConf i * (25/100)
    verified := false
    attributes := some
      { tags := some ["AI Generated", if hasIT then "Tech Zone" else "Commercial Zone"]
        hours := some (if hasIT then "7 AM - 10 PM" else "9 AM - 9 PM") } }

/-- `generateAISuggestions` of utils/aiReasoning.ts: exactly 5 suggestions
from the per-query-type name templates. -/
def generateAISuggestions (location businessType : String) (contextFactors : List String)
    (queryType : Option String) (rnd : RandomOracle) (now : Nat) : List POIData :=
  (List.range 5).map
    (aiSuggestionAt (getCityCoordinates location) (suggestionNames businessType queryType)
      (hasITContext contextFactors) rnd now)

/-- The fixed verified-name templates of `validateWithGroundTruth`. -/
def verifiedNames (businessType : String) : List String :=
  ["Verified: " ++ businessType ++ " - Prime Location",
   "Validated: High-Traffic " ++ businessType ++ " Zone",
   "Confirmed: " ++ businessType ++ " Opportunity",
   "Ground Truth: Optimal " ++ businessType ++ " Spot"]

/-- The i-th verified POI synthesized by `validateWithGroundTruth`. -/
def verifiedPOIAt (coords : ℚ × ℚ) (businessType : String)
    (rnd : RandomOracle) (now i : Nat) : POIData :=
  { id := "verified_" ++ toString now ++ "_" ++ toString i
    name := (verifiedNames businessType).getD i ("Verified Location " ++ toString (i + 1))
    category := "ground_truth_verified"
    lat := coords.1 + (rnd.verLat i - 1/2) * (35/1000)
    lng := coords.2 + (rnd.verLng i - 1/2) * (35/1000)
    confidence := 82/100 + rnd.verConf i * (13/100)
    verified := true
    attributes := some
      { tags := some ["POI Classifier Validated", "Ground Truth"]
        rating := some (35/10 + rnd.verRating i * (15/10))
        hours := some "Based on verified operating patterns" } }

/-- `validateWithGroundTruth` of utils/aiReasoning.ts: a validation rate
drawn from [0.60, 0.70), floored count, synthesized verified POIs. -/
def validateWithGroundTruth (aiSuggestions : List POIData) (location businessType : String)
    (rnd : RandomOracle) (now : Nat) : List POIData :=
  let validationRate : ℚ := 60/100 + rnd.validationRate * (10/100)
  let validCount : ℤ := ⌊(aiSuggestions.length : ℚ) * validationRate⌋
  (List.range validCount.toNat).map
    (verifiedPOIAt (getCityCoordinates location) businessType rnd now)

/-- `identifyCorrectionsAndGaps` of utils/aiReasoning.ts. -/
def identifyCorrectionsAndGaps (contextFactors : List String)
    (businessType location : String) (rnd : RandomOracle) : List String × List String :=
  let corrections :=
    if hasITContext contextFactors then
      ["AI assumed standard commercial hours; actual IT park peak times are 8-10 AM and 6-8 PM",
       "AI suggested general commercial areas; IT corridors have different foot traffic patterns"]
    else
      ["AI overestimated foot traffic in suggested Zone 2 by approximately 35%",
       "Competition density in AI\x27s top pick is higher than estimated (4 similar businesses within 500m)"]
  let gapN : ℤ := ⌊rnd.gapCount * 3⌋ + 2
  let gaps :=
    ["Identified " ++ toString gapN ++ " underserved neighborhoods with high demand potential",
     "Found market gap: No " ++ businessType ++ " within 1km of " ++ location ++ " Central Metro Station"]
  let gaps :=
    if contextFactors.any (fun f => containsSubstr (lowerStr f) "residential") then
      gaps ++ ["Residential zones in " ++ location ++ " East show 40% higher demand than current supply"]
    else gaps
  (corrections, gaps)

/-- `generateRecommendation` of utils/aiReasoning.ts (the fixed-format text
block; only its top-POI name and confidence derive from data). -/
def generateRecommendation (businessType location : String) (verified : List POIData)
    (corrections gaps : List String) : String :=
  let topLocation := match verified.head? with
    | some p => p.name
    | none => "No optimal location identified"
  let confidence : ℤ := match verified.head? with
    | some p => jsRound (p.confidence * 100)
    | none => 0
  "━━━━━━━━━━━━━━━━━━━━━━━━━━━━━━━━━━━━━━━━━━━━━━━━━━━━\n📊 ANALYSIS SUMMARY: "
    ++ businessType ++ " in " ++ location
    ++ "\n━━━━━━━━━━━━━━━━━━━━━━━━━━━━━━━━━━━━━━━━━━━━━━━━━━━━\n\n✅ Verified Locations: "
    ++ toString verified.length
    ++ "\n⚠️  AI Corrections Made: " ++ toString corrections.length
    ++ "\n🔍 Market Gaps Found: " ++ toString gaps.length
    ++ "\n\n━━━━━━━━━━━━━━━━━━━━━━━━━━━━━━━━━━━━━━━━━━━━━━━━━━━━\n🎯 TOP RECOMMENDATION\n━━━━━━━━━━━━━━━━━━━━━━━━━━━━━━━━━━━━━━━━━━━━━━━━━━━━\n\nLocation: "
    ++ topLocation ++ "\nConfidence: " ++ toString confidence
    ++ "% (grounded in POI data)\n\nThis recommendation is validated against real-world POI \ndata using our 61% accuracy classifier, ensuring AI \nreasoning is grounded in physical reality.\n"

/-- `analyzeQuery` of utils/aiReasoning.ts: the full orchestrator pipeline. -/
def analyzeQuery (cfg : LLMConfig) (llmCall : Except String (Option String))
    (parse : String → Except String LLMQueryAnalysis)
    (query : String) (queryType : Option String) (rnd : RandomOracle) (now : Nat) :
    AnalysisResult :=
  let llmAnalysis := analyzeSpatialQuery cfg llmCall parse query
  let aiSuggestions := generateAISuggestions llmAnalysis.location llmAnalysis.businessType
    llmAnalysis.contextualFactors queryType rnd now
  let verifiedPOIs := validateWithGroundTruth aiSuggestions llmAnalysis.location
    llmAnalysis.businessType rnd now
  let cg := identifyCorrectionsAndGaps llmAnalysis.contextualFactors
    llmAnalysis.businessType llmAnalysis.location rnd
  let accuracy := jsRound (((verifiedPOIs.length : ℚ) / (max aiSuggestions.length 1 : ℕ)) * 100)
  { query := query
    aiReasoning :=
      { interpretation := llmAnalysis.marketInsights
        suggestedLocations := aiSuggestions
        assumptions := llmAnalysis.keyAssumptions
        confidence := 72/100 + rnd.reasoningConf * (8/100) }
    groundTruth :=
      { verifiedPOIs := verifiedPOIs
        corrections := cg.1
        gaps := cg.2
        accuracy := min accuracy 70 }
    recommendation := generateRecommendation llmAnalysis.businessType llmAnalysis.location
      verifiedPOIs cg.1 cg.2
    visualization :=
      { center := getCityCoordinates llmAnalysis.location
        zoom := 13 } }

/-- A JSON-ish JavaScript value as it can appear in a request body field. -/
inductive JSValue where
  | undefined
  | null
  | str (s : String)
  | num (q : ℚ)
  | bool (b : Bool)
deriving DecidableEq

/-- JavaScript truthiness of a body field (`!query`): `undefined`, `null`,
the empty string, `0` and `false` are falsy. -/
def JSValue.truthy : JSValue → Bool
  | .undefined => false
  | .null => false
  | .str s => !s.data.isEmpty
  | .num q => decide (q ≠ 0)
  | .bool b => b

/-- `typeof query === 'string'`. -/
def JSValue.isString : JSValue → Bool
  | .str _ => true
  | _ => false

/-- The string payload of a string-valued field. -/
def JSValue.asString : JSValue → String
  | .str s => s
  | _ => ""

/-- An incoming request to the analyze endpoint: its HTTP method and the two
body fields the handler reads (`undefined` when absent). -/
structure AnalyzeRequest where
  method : String
  query : JSValue
  queryType : JSValue
deriving DecidableEq

/-- What the analyze handler sends back: the status code, the 200 payload if
any, and whether the orchestrator was invoked at all. -/
structure AnalyzeResponse where
  status : Nat
  result : Option AnalysisResult
  invokedOrchestrator : Bool
deriving DecidableEq

/-- The `queryType` body field as the orchestrator receives it
(`analyzeQuery(query, queryType)` with `queryType?: string`): a string field
is passed through, anything else arrives as absent. -/
def JSValue.asQueryType : JSValue → Option String
  | .str s => some s
  | _ => none

/-- The analyze handler of pages/api/analyze.ts: 405 on non-POST, 400 on a
falsy or non-string query, otherwise the orchestrator's result as 200, and
500 when the orchestrator throws. The orchestrator (with its configuration,
network effects and randomness already applied) is the `orchestrate`
parameter. -/
def analyzeHandler (orchestrate : String → Option String → Except String AnalysisResult)
    (req : AnalyzeRequest) : AnalyzeResponse :=
  if req.method ≠ "POST" then ⟨405, none, false⟩
  else if req.query.truthy = false ∨ req.query.isString = false then ⟨400, none, false⟩
  else
    match orchestrate req.query.asString req.queryType.asQueryType with
    | .ok r => ⟨200, some r, true⟩
    | .error _ => ⟨500, none, true⟩

/-- A minimal concrete `AnalysisResult` used as an orchestrator stub. -/
def emptyResult : AnalysisResult :=
  { query := ""
    aiReasoning := { interpretation := "", suggestedLocations := [], assumptions := [],
                     confidence := 0 }
    groundTruth := { verifiedPOIs := [], corrections := [], gaps := [], accuracy := 0 }
    recommendation := ""
    visualization := { center := (0, 0), zoom := 13 } }

/-- The all-zeroes random oracle: the run in which every `Math.random()`
returned 0. -/
def zeroOracle : RandomOracle :=
  { reasoningConf := 0, aiLat := fun _ => 0, aiLng := fun _ => 0, aiConf := fun _ => 0,
    validationRate := 0, verLat := fun _ => 0, verLng := fun _ => 0, verConf := fun _ => 0,
    verRating := fun _ => 0, gapCount := 0 }

/-- A configuration with the LLM disabled, as used in the witnesses. -/
def simConfig : LLMConfig := { useLLM := false, provider := "simulate" }

/-- An LLM-call stub that always fails, as used in the witnesses. -/
def failingParse : String → Except String LLMQueryAnalysis := fun _ => .error "parse error"

/-- The keyword list of the taxonomy category with the given id. -/
def categoryKeywords (id : String) : List String :=
  match POI_CATEGORIES.find? (fun c => c.id == id) with
  | some c => c.keywords
  | none => []

theorem ratAdd_eq_add (a b : ℚ) : ratAdd a b = a + b := by
  have ha : ((a.den : ℚ)) ≠ 0 := by exact_mod_cast a.den_nz
  have hb : ((b.den : ℚ)) ≠ 0 := by exact_mod_cast b.den_nz
  unfold ratAdd
  rw [Rat.mkRat_eq_div]
  push_cast
  conv_rhs => rw [← Rat.num_div_den a, ← Rat.num_div_den b]
  rw [div_add_div _ _ ha hb]
  ring_nf

/-- A fold step that never matches leaves the accumulator unchanged
(used for a keyword-free name in `keywordScore`). -/
theorem foldl_keyword_no_match (s : String) (l : List String) (a : ℚ)
    (h : ∀ kw ∈ l, containsSubstr s kw = false) :
    l.foldl (fun score kw => if containsSubstr s kw then ratAdd score (mkRat 35 100) else score) a
      = a := by
  induction l generalizing a with
  | nil => rfl
  | cons x xs ih =>
    have hx := h x (List.mem_cons_self x xs)
    simp only [List.foldl_cons, hx, Bool.false_eq_true, if_false]
    exact ih a fun kw hm => h kw (List.mem_cons_of_mem x hm)

theorem keywordScore_eq_zero (name : String) (cat : POICategory)
    (h : ∀ kw ∈ cat.keywords, containsSubstr (lowerStr name) kw = false) :
    keywordScore (lowerStr name) cat = 0 :=
  foldl_keyword_no_match (lowerStr name) cat.keywords 0 h

/-- If no category beats the current best, the classifier fold keeps it. -/
theorem classify_foldl_no_update (name : String) (context : Option String)
    (cats : List POICategory) (best : Classification)
    (h : ∀ cat ∈ cats, categoryConfidence name context cat ≤ best.confidence) :
    cats.foldl (classifyStep name context) best = best := by
  induction cats with
  | nil => rfl
  | cons c cs ih =>
    have hc : ¬ best.confidence < categoryConfidence name context c :=
      not_lt.mpr (h c (List.mem_cons_self c cs))
    simp only [List.foldl_cons]
    rw [show classifyStep name context best c = best by unfold classifyStep; simp [hc]]
    exact ih fun cat hm => h cat (List.mem_cons_of_mem c hm)

/-- Every key of the gazetteer resolves to its own entry (the keys are
pairwise distinct). -/
theorem lookup_of_mem_city :
    ∀ p ∈ CITY_COORDINATES, CITY_COORDINATES.lookup p.1 = some p.2 := by decide

theorem generateAISuggestions_length (location businessType : String) (cf : List String)
    (qt : Option String) (rnd : RandomOracle) (now : Nat) :
    (generateAISuggestions location businessType cf qt rnd now).length = 5 := by
  unfold generateAISuggestions
  rw [List.length_map, List.length_range]

theorem generateAISuggestions_not_verified (location businessType : String) (cf : List String)
    (qt : Option String) (rnd : RandomOracle) (now : Nat) (p : POIData)
    (hp : p ∈ generateAISuggestions location businessType cf qt rnd now) :
    p.verified = false := by
  unfold generateAISuggestions at hp
  rcases List.mem_map.mp hp with ⟨i, _, rfl⟩
  rfl

/-- With the validation rate drawn from [0.60, 0.70) and 5 suggestions, the
floored verified count is always 3. -/
theorem validCount_eq_three (x : ℚ) (h0 : 0 ≤ x) (h1 : x < 1) :
    ⌊((5 : ℕ) : ℚ) * (60/100 + x * (10/100))⌋ = 3 := by
  have h : ((5 : ℕ) : ℚ) * (60/100 + x * (10/100)) = 3 + x / 2 := by push_cast; ring
  rw [h, Int.floor_eq_iff]
  constructor
  · push_cast; linarith
  · push_cast; linarith

theorem validateWithGroundTruth_length (s : List POIData) (loc bt : String)
    (rnd : RandomOracle) (now : Nat) (h5 : s.length = 5)
    (h0 : 0 ≤ rnd.validationRate) (h1 : rnd.validationRate < 1) :
    (validateWithGroundTruth s loc bt rnd now).length = 3 := by
  unfold validateWithGroundTruth
  rw [List.length_map, List.length_range, h5, validCount_eq_three rnd.validationRate h0 h1]
  rfl

theorem validateWithGroundTruth_verified (s : List POIData) (loc bt : String)
    (rnd : RandomOracle) (now : Nat) (p : POIData)
    (hp : p ∈ validateWithGroundTruth s loc bt rnd now) :
    p.verified = true := by
  unfold validateWithGroundTruth at hp
  rcases List.mem_map.mp hp with ⟨i, _, rfl⟩
  rfl

theorem zeroOracle_valid : zeroOracle.Valid := by
  unfold RandomOracle.Valid inUnit zeroOracle
  norm_num

/-- C6: with LLM mode disabled the heuristic interpreter is a pure function
of the query string, and on "Where should I open a chai stall near IT parks
in Bangalore?" it extracts location "Bangalore", business type "Chai Stall",
and a contextual-factor list containing "Proximity to IT/Tech Parks". -/
theorem simulate_chai_query :
    (simulateAnalysis "Where should I open a chai stall near IT parks in Bangalore?").location
        = "Bangalore" ∧
    (simulateAnalysis "Where should I open a chai stall near IT parks in Bangalore?").businessType
        = "Chai Stall" ∧
    "Proximity to IT/Tech Parks" ∈
      (simulateAnalysis "Where should I open a chai stall near IT parks in Bangalore?").contextualFactors := by
  refine ⟨by decide, by decide, by decide⟩

/-- C5: in LLM mode, every failure of the chat-completion call — network
error/timeout, missing or empty message content, or a JSON-parse failure —
is absorbed inside `analyzeSpatialQuery`, which returns the heuristic
interpretation of the same query; the interpreter is total, so no failure
reaches its caller. -/
theorem llm_failure_falls_back :
    ∀ (cfg : LLMConfig) (llmCall : Except String (Option String))
      (parse : String → Except String LLMQueryAnalysis) (query : String),
      cfg.useLLM = true → cfg.provider ≠ "simulate" →
      ((∃ e, llmCall = .error e) ∨ llmCall = .ok none ∨
        (∃ c, llmCall = .ok (some c) ∧
          (c = "" ∨ ∃ e, parse (stripCodeFences c) = .error e))) →
      analyzeSpatialQuery cfg llmCall parse query = simulateAnalysis query := by
  intro cfg llmCall parse query huse hprov hfail
  unfold analyzeSpatialQuery
  rw [if_neg (by simp [huse, hprov])]
  by_cases hc : hasClient cfg.provider = false
  · rw [if_pos hc]
  · rw [if_neg hc]
    rcases hfail with ⟨e, rfl⟩ | rfl | ⟨c, rfl, hcc⟩
    · rfl
    · rfl
    · show (if c = "" then simulateAnalysis query
          else match parse (stripCodeFences c) with
            | .error _ => simulateAnalysis query
            | .ok analysis => analysis) = simulateAnalysis query
      rcases hcc with rfl | ⟨e, he⟩
      · rw [if_pos rfl]
      · by_cases hce : c = ""
        · rw [if_pos hce]
        · rw [if_neg hce, he]

theorem llm_failure_falls_back_witness :
    analyzeSpatialQuery { useLLM := true, provider := "ollama" } (.error "network error")
      failingParse "test query" = simulateAnalysis "test query" :=
  llm_failure_falls_back { useLLM := true, provider := "ollama" } (.error "network error")
    failingParse "test query" rfl (by decide) (.inl ⟨"network error", rfl⟩)

/-- C7 counterexample: "Constructor" normalizes to "constructor", which is
not a key of the gazetteer table, yet JavaScript bracket lookup finds the
truthy inherited `Object.prototype.constructor`, so the `||` fallback never
fires and the function returns that inherited member — not the default
city's coordinates. -/
theorem gazetteer_constructor_counterexample :
    CITY_COORDINATES.lookup (normalizeCity "Constructor") = none ∧
    getCityCoordinatesJS "Constructor" = .inherited "constructor" ∧
    getCityCoordinatesJS "Constructor" ≠ .coords bangaloreCoords := by
  refine ⟨by decide, by decide, by decide⟩

/-- C7 (amended): every key of the fixed gazetteer, looked up under any
letter casing (and whitespace), yields that city's fixed coordinate pair; a
name whose normalization is neither a key nor an `Object.prototype` member
name yields the default (Bangalore) coordinates; and a name normalizing to
an `Object.prototype` member name (such as "constructor" or "__proto__")
yields that truthy inherited member instead of the default. -/
theorem gazetteer_lookup_js_spec :
    (∀ p ∈ CITY_COORDINATES, ∀ s : String, normalizeCity s = p.1 →
       getCityCoordinatesJS s = .coords p.2) ∧
    (∀ s : String, CITY_COORDINATES.lookup (normalizeCity s) = none →
       objectPrototypeKeys.contains (normalizeCity s) = false →
       getCityCoordinatesJS s = .coords bangaloreCoords) ∧
    (∀ s : String, CITY_COORDINATES.lookup (normalizeCity s) = none →
       objectPrototypeKeys.contains (normalizeCity s) = true →
       getCityCoordinatesJS s = .inherited (normalizeCity s)) := by
  refine ⟨?_, ?_, ?_⟩
  · intro p hp s hs
    unfold getCityCoordinatesJS
    rw [hs, lookup_of_mem_city p hp]
  · intro s h1 h2
    unfold getCityCoordinatesJS
    rw [h1, h2]
    simp
  · intro s h1 h2
    unfold getCityCoordinatesJS
    rw [h1, h2]
    simp

theorem gazetteer_lookup_js_spec_witness :
    getCityCoordinatesJS "DELHI" = .coords (mkRat 286139 10000, mkRat 772090 10000) ∧
    getCityCoordinatesJS "Atlantis" = .coords bangaloreCoords ∧
    getCityCoordinatesJS "__proto__" = .inherited "__proto__" :=
  ⟨gazetteer_lookup_js_spec.1 ("delhi", (mkRat 286139 10000, mkRat 772090 10000)) (by decide)
      "DELHI" (by decide),
   gazetteer_lookup_js_spec.2.1 "Atlantis" (by decide) (by decide),
   gazetteer_lookup_js_spec.2.2 "__proto__" (by decide) (by decide)⟩

/-- C8: classifying the empty name, or any name whose lower-casing contains
no taxonomy keyword, yields category "unknown" with confidence exactly
0.3. -/
theorem classify_unknown_floor :
    classifyPOI "" none = ⟨"unknown", mkRat 3 10⟩ ∧
    ∀ name : String,
      (∀ cat ∈ POI_CATEGORIES, ∀ kw ∈ cat.keywords,
        containsSubstr (lowerStr name) kw = false) →
      classifyPOI name none = ⟨"unknown", mkRat 3 10⟩ := by
  constructor
  · decide
  · intro name h
    unfold classifyPOI
    apply classify_foldl_no_update
    intro cat hcat
    show min (keywordScore (lowerStr name) cat) (mkRat 95 100) ≤ mkRat 3 10
    rw [keywordScore_eq_zero name cat (h cat hcat)]
    exact le_trans (min_le_left _ _) (by decide)

theorem classify_unknown_floor_witness :
    classifyPOI "zzz" none = ⟨"unknown", mkRat 3 10⟩ :=
  classify_unknown_floor.2 "zzz" (by decide)

/-- C9 counterexample: a POST request whose query field is present and of
string type, but the empty string, is rejected with 400 (JavaScript
truthiness of `!query`), not answered with 200 as the claim states, even
though the orchestrator would have succeeded. -/
theorem handler_empty_query_counterexample :
    (JSValue.str "").isString = true ∧
    analyzeHandler (fun _ _ => .ok emptyResult)
      { method := "POST", query := .str "", queryType := .undefined }
      = ⟨400, none, false⟩ := by
  constructor
  · rfl
  · rfl

/-- C9 (amended): the analyze handler returns 405 for every non-POST method
and 400 whenever the query field is missing, not a string, or the empty
string — in these cases without invoking the orchestrator — and otherwise
invokes the orchestrator, returning 200 with its result, or 500 when it
throws. -/
theorem handler_status_spec :
    ∀ (orchestrate : String → Option String → Except String AnalysisResult)
      (req : AnalyzeRequest),
      (req.method ≠ "POST" → analyzeHandler orchestrate req = ⟨405, none, false⟩) ∧
      (req.method = "POST" →
        (req.query.truthy = false ∨ req.query.isString = false) →
        analyzeHandler orchestrate req = ⟨400, none, false⟩) ∧
      (req.method = "POST" → req.query.truthy = true → req.query.isString = true →
        (∀ r, orchestrate req.query.asString req.queryType.asQueryType = .ok r →
           analyzeHandler orchestrate req = ⟨200, some r, true⟩) ∧
        (∀ e, orchestrate req.query.asString req.queryType.asQueryType = .error e →
           analyzeHandler orchestrate req = ⟨500, none, true⟩)) := by
  intro orchestrate req
  refine ⟨?_, ?_, ?_⟩
  · intro hm
    unfold analyzeHandler
    rw [if_pos hm]
  · intro hm hq
    unfold analyzeHandler
    rw [if_neg (by simp [hm]), if_pos hq]
  · intro hm ht hs
    constructor
    · intro r hr
      unfold analyzeHandler
      rw [if_neg (by simp [hm]), if_neg (by simp [ht, hs]), hr]
    · intro e he
      unfold analyzeHandler
      rw [if_neg (by simp [hm]), if_neg (by simp [ht, hs]), he]

theorem handler_status_spec_witness :
    analyzeHandler (fun _ _ => .ok emptyResult)
      { method := "GET", query := .undefined, queryType := .undefined }
      = ⟨405, none, false⟩ :=
  (handler_status_spec (fun _ _ => .ok emptyResult)
    { method := "GET", query := .undefined, queryType := .undefined }).1 (by decide)

/-- The accuracy field is, definitionally, the code's
`Math.min(Math.round(v / Math.max(s, 1) * 100), 70)`. -/
theorem analyzeQuery_accuracy_def (cfg : LLMConfig) (llmCall : Except String (Option String))
    (parse : String → Except String LLMQueryAnalysis) (query : String)
    (queryType : Option String) (rnd : RandomOracle) (now : Nat) :
    (analyzeQuery cfg llmCall parse query queryType rnd now).groundTruth.accuracy =
      min (jsRound
        ((((analyzeQuery cfg llmCall parse query queryType rnd now).groundTruth.verifiedPOIs.length : ℚ) /
          ((max (analyzeQuery cfg llmCall parse query queryType rnd now).aiReasoning.suggestedLocations.length 1 : ℕ) : ℚ)) * 100)) 70 :=
  rfl

theorem jsRound_sixty : jsRound 60 = 60 := by
  unfold jsRound
  rw [Int.floor_eq_iff]
  constructor <;> norm_num

theorem analyzeQuery_accuracy_sixty (cfg : LLMConfig) (llmCall : Except String (Option String))
    (parse : String → Except String LLMQueryAnalysis) (query : String)
    (queryType : Option String) (rnd : RandomOracle) (now : Nat)
    (h0 : 0 ≤ rnd.validationRate) (h1 : rnd.validationRate < 1) :
    (analyzeQuery cfg llmCall parse query queryType rnd now).groundTruth.accuracy = 60 := by
  have hs : (analyzeQuery cfg llmCall parse query queryType rnd now).aiReasoning.suggestedLocations.length = 5 :=
    generateAISuggestions_length _ _ _ _ _ _
  have hv3 : (analyzeQuery cfg llmCall parse query queryType rnd now).groundTruth.verifiedPOIs.length = 3 :=
    validateWithGroundTruth_length _ _ _ _ _ (generateAISuggestions_length _ _ _ _ _ _) h0 h1
  rw [analyzeQuery_accuracy_def, hs, hv3]
  rw [show (max (5 : ℕ) 1) = 5 from rfl]
  rw [show (((3 : ℕ) : ℚ) / ((5 : ℕ) : ℚ)) * 100 = 60 by norm_num]
  rw [jsRound_sixty]
  norm_num

/-- C2: the orchestrator's `groundTruth.accuracy` is exactly
round(100 × verified count / max(suggestion count, 1)) capped at 70, and it
is an integer (by type) in the interval [0, 70]. -/
theorem analyze_accuracy_formula :
    ∀ (cfg : LLMConfig) (llmCall : Except String (Option String))
      (parse : String → Except String LLMQueryAnalysis) (query : String)
      (queryType : Option String) (rnd : RandomOracle) (now : Nat),
      rnd.Valid →
      ((analyzeQuery cfg llmCall parse query queryType rnd now).groundTruth.accuracy =
        min (jsRound
          (100 * ((analyzeQuery cfg llmCall parse query queryType rnd now).groundTruth.verifiedPOIs.length : ℚ) /
            ((max (analyzeQuery cfg llmCall parse query queryType rnd now).aiReasoning.suggestedLocations.length 1 : ℕ) : ℚ))) 70) ∧
      0 ≤ (analyzeQuery cfg llmCall parse query queryType rnd now).groundTruth.accuracy ∧
      (analyzeQuery cfg llmCall parse query queryType rnd now).groundTruth.accuracy ≤ 70 := by
  intro cfg llmCall parse query queryType rnd now hvalid
  obtain ⟨_, hvr, _⟩ := hvalid
  have hacc := analyzeQuery_accuracy_sixty cfg llmCall parse query queryType rnd now hvr.1 hvr.2
  have hs : (analyzeQuery cfg llmCall parse query queryType rnd now).aiReasoning.suggestedLocations.length = 5 :=
    generateAISuggestions_length _ _ _ _ _ _
  have hv3 : (analyzeQuery cfg llmCall parse query queryType rnd now).groundTruth.verifiedPOIs.length = 3 :=
    validateWithGroundTruth_length _ _ _ _ _ (generateAISuggestions_length _ _ _ _ _ _) hvr.1 hvr.2
  refine ⟨?_, ?_, ?_⟩
  · rw [hacc, hs, hv3]
    rw [show (max (5 : ℕ) 1) = 5 from rfl]
    rw [show (100 : ℚ) * ((3 : ℕ) : ℚ) / ((5 : ℕ) : ℚ) = 60 by norm_num]
    rw [jsRound_sixty]
    norm_num
  · rw [hacc]; norm_num
  · rw [hacc]; norm_num

theorem analyze_accuracy_formula_witness :
    0 ≤ (analyzeQuery simConfig (.error "network error") failingParse "test" none
          zeroOracle 0).groundTruth.accuracy ∧
    (analyzeQuery simConfig (.error "network error") failingParse "test" none
      zeroOracle 0).groundTruth.accuracy ≤ 70 :=
  ⟨(analyze_accuracy_formula simConfig (.error "network error") failingParse "test" none
      zeroOracle 0 zeroOracle_valid).2.1,
   (analyze_accuracy_formula simConfig (.error "network error") failingParse "test" none
      zeroOracle 0 zeroOracle_valid).2.2⟩

/-- C3: on every run, `aiReasoning.suggestedLocations` has exactly 5
entries, each with `verified = false`. -/
theorem analyze_suggestions_five_unverified :
    ∀ (cfg : LLMConfig) (llmCall : Except String (Option String))
      (parse : String → Except String LLMQueryAnalysis) (query : String)
      (queryType : Option String) (rnd : RandomOracle) (now : Nat),
      (analyzeQuery cfg llmCall parse query queryType rnd now).aiReasoning.suggestedLocations.length = 5 ∧
      ∀ p ∈ (analyzeQuery cfg llmCall parse query queryType rnd now).aiReasoning.suggestedLocations,
        p.verified = false := by
  intro cfg llmCall parse query queryType rnd now
  constructor
  · exact generateAISuggestions_length _ _ _ _ _ _
  · intro p hp
    exact generateAISuggestions_not_verified _ _ _ _ _ _ p hp

theorem analyze_suggestions_five_unverified_witness :
    (analyzeQuery simConfig (.error "network error") failingParse "test" none
      zeroOracle 0).aiReasoning.suggestedLocations.length = 5 :=
  (analyze_suggestions_five_unverified simConfig (.error "network error") failingParse "test"
    none zeroOracle 0).1

/-- C4: on every run, `groundTruth.verifiedPOIs` is no longer than
`aiReasoning.suggestedLocations`, and each of its POIs has
`verified = true`. -/
theorem analyze_verified_subset :
    ∀ (cfg : LLMConfig) (llmCall : Except String (Option String))
      (parse : String → Except String LLMQueryAnalysis) (query : String)
      (queryType : Option String) (rnd : RandomOracle) (now : Nat),
      rnd.Valid →
      (analyzeQuery cfg llmCall parse query queryType rnd now).groundTruth.verifiedPOIs.length ≤
        (analyzeQuery cfg llmCall parse query queryType rnd now).aiReasoning.suggestedLocations.length ∧
      ∀ p ∈ (analyzeQuery cfg llmCall parse query queryType rnd now).groundTruth.verifiedPOIs,
        p.verified = true := by
  intro cfg llmCall parse query queryType rnd now hvalid
  obtain ⟨_, hvr, _⟩ := hvalid
  constructor
  · have h3 : (analyzeQuery cfg llmCall parse query queryType rnd now).groundTruth.verifiedPOIs.length = 3 :=
      validateWithGroundTruth_length _ _ _ _ _ (generateAISuggestions_length _ _ _ _ _ _) hvr.1 hvr.2
    have h5 : (analyzeQuery cfg llmCall parse query queryType rnd now).aiReasoning.suggestedLocations.length = 5 :=
      generateAISuggestions_length _ _ _ _ _ _
    rw [h3, h5]
    norm_num
  · intro p hp
    exact validateWithGroundTruth_verified _ _ _ _ _ p hp

theorem analyze_verified_subset_witness :
    (analyzeQuery simConfig (.error "network error") failingParse "test" none
      zeroOracle 0).groundTruth.verifiedPOIs.length ≤
    (analyzeQuery simConfig (.error "network error") failingParse "test" none
      zeroOracle 0).aiReasoning.suggestedLocations.length :=
  (analyze_verified_subset simConfig (.error "network error") failingParse "test" none
    zeroOracle 0 zeroOracle_valid).1

/-- C10: on every run, the verified count is exactly 3 — the floor of
5 × rate with rate drawn from [0.60, 0.70) — so `groundTruth.accuracy` is
always exactly 60 and the cap at 70 never binds. -/
theorem analyze_always_three_sixty :
    ∀ (cfg : LLMConfig) (llmCall : Except String (Option String))
      (parse : String → Except String LLMQueryAnalysis) (query : String)
      (queryType : Option String) (rnd : RandomOracle) (now : Nat),
      rnd.Valid →
      (analyzeQuery cfg llmCall parse query queryType rnd now).groundTruth.verifiedPOIs.length = 3 ∧
      (analyzeQuery cfg llmCall parse query queryType rnd now).groundTruth.accuracy = 60 := by
  intro cfg llmCall parse query queryType rnd now hvalid
  obtain ⟨_, hvr, _⟩ := hvalid
  exact ⟨validateWithGroundTruth_length _ _ _ _ _ (generateAISuggestions_length _ _ _ _ _ _)
      hvr.1 hvr.2,
    analyzeQuery_accuracy_sixty cfg llmCall parse query queryType rnd now hvr.1 hvr.2⟩

theorem analyze_always_three_sixty_witness :
    (analyzeQuery simConfig (.error "network error") failingParse "test" none
      zeroOracle 0).groundTruth.verifiedPOIs.length = 3 ∧
    (analyzeQuery simConfig (.error "network error") failingParse "test" none
      zeroOracle 0).groundTruth.accuracy = 60 :=
  analyze_always_three_sixty simConfig (.error "network error") failingParse "test" none
    zeroOracle 0 zeroOracle_valid

/-- C1 counterexample: "IT park" is a keyword of the "technology" category,
yet classifying the name "IT park" (and no context) yields "entertainment":
the mixed-case keyword is compared against the lower-cased name and never
matches, while entertainment's keyword "park" does. -/
theorem classify_it_park_counterexample :
    "IT park" ∈ categoryKeywords "technology" ∧
    (classifyPOI "IT park" none).category ≠ "technology" ∧
    classifyPOI "IT park" none = ⟨"entertainment", mkRat 35 100⟩ := by
  refine ⟨by decide, by decide, by decide⟩

/-- C1 (amended): for every category and every keyword of that category —
except the five pairs of `keywordClaimExceptions`, where the keyword's own
lower-cased name matches an equal-scoring earlier category or (for
"IT park") never matches itself — classifying the bare keyword returns that
category's id with confidence in [0.35, 0.95]. -/
theorem classify_keyword_amended :
    ∀ cat ∈ POI_CATEGORIES, ∀ kw ∈ cat.keywords,
      (cat.id, kw) ∉ keywordClaimExceptions →
      (classifyPOI kw none).category = cat.id ∧
      mkRat 35 100 ≤ (classifyPOI kw none).confidence ∧
      (classifyPOI kw none).confidence ≤ mkRat 95 100 := by
  decide

theorem classify_keyword_amended_witness :
    (classifyPOI "chai" none).category = "food_beverage" ∧
    mkRat 35 100 ≤ (classifyPOI "chai" none).confidence ∧
    (classifyPOI "chai" none).confidence ≤ mkRat 95 100 :=
  classify_keyword_amended (POI_CATEGORIES.getD 0 ⟨"", "", "", [], []⟩) (by decide) "chai"
    (by decide) (by decide)

end POIOracle
